import Mathlib

/-!
Verification of the mock GEM device construction/teardown sequencer of
`drivers/gpu/drm/i915/selftests/mock_gem_device.c` (`mock_gem_device`,
`mock_device_flush`, `mock_device_release`, `mock_destroy_device`) and of
the backported `is_cow_mapping` helper of `backport-include/linux/mm.h`.

The C code is embedded shallowly.  Every externally observable
acquisition or release call made by the sequencer is an `Event`; one run
of a routine is the list of events it emits, in order, together with its
return value.  A `FailProfile` records, for each fallible collaborator
call, whether that call succeeds, so quantifying over profiles covers
every combination of collaborator failures.  The goto labels of the C
unwind chain (`err_context`, `err_unlock`, `err_free_wq`, `err_uncore`,
`err_drv`) are one Lean definition each, nested exactly as the labels
fall through in the source.

The drain loop of `mock_device_flush` is driven by an oracle
`List Bool`: the n-th element is the value reported by the n-th call to
`intel_gt_retire_requests_timeout` (`true` = no work remains).  The
model covers the terminating executions, i.e. oracles that eventually
report `true`.

`devres_release_group` in `mock_destroy_device` releases the devres
group opened on the fake PCI device.  The only member of that group is
the action registered by `devm_drm_dev_alloc`, which drops the final DRM
device reference, so the DRM release callback (`mock_device_release`)
and the freeing of the DRM-managed memory both run *inside* the group
release, before `put_device` drops the identity reference.  The trace of
`mock_destroy_device` reflects this: release-callback events, then
`drmDevFree`, then `devresGroupReleased`, then `putDevice`.
-/

namespace MockI915

/-- CPU affinity mask argument of `i915_sched_engine_create_cpu`;
`allCpus` is `cpu_all_mask`. -/
inductive CpuMask where
  | allCpus
  | other
deriving DecidableEq

/-- Observable collaborator calls of the sequencer.  Acquisition events:
`allocPdev` (`kzalloc` + `device_initialize` of the fake PCI identity),
`openGroup` (`devres_open_group`), `allocDrmDev` (`devm_drm_dev_alloc`),
`paramsCopy` (`i915_params_copy`), `modeConfigInit`
(`drm_mode_config_init`), `uncoreInit` (`mock_uncore_init`),
`wakerefInc` (`atomic_inc` of the GT wakeref), `memRegionsProbe`
(`intel_memory_regions_hw_probe`), `allocWq` (`alloc_workqueue`),
`schedCreate n m` (`i915_sched_engine_create_cpu(n, wq, m)`),
`initContexts` (`mock_init_contexts`), `drmmAllocGgtt` (`drmm_kzalloc`
of the ggtt), `initGgtt` (`mock_init_ggtt`), `vmGet` (`i915_vm_get`),
`engineConstruct` (`mock_engine`), `engineInitDone`
(`mock_engine_init`), `enginesRegister`
(`intel_engines_driver_register`), `idaInit` (`ida_init`),
`debuggerInit` (`i915_debugger_init`).  Release events: `debuggerFini`,
`engineFlush` (`mock_engine_flush`), `retire b`
(`intel_gt_retire_requests_timeout` reporting `b`), `gtDriverRemove`
(`intel_gt_driver_remove`), `drainWorkqueue`
(`i915_gem_drain_workqueue`), `drainFreedObjects`
(`i915_gem_drain_freed_objects`), `finiGgtt` (`mock_fini_ggtt`),
`schedPut` (`i915_sched_engine_put`), `lateReleaseAll`
(`intel_gt_driver_late_release_all`), `memRegionsRelease`
(`intel_memory_regions_driver_release`), `destroyWq`
(`destroy_workqueue`), `modeConfigCleanup` (`drm_mode_config_cleanup`),
`uncoreUninit` (`mock_uncore_uninit`), `paramsFree`
(`i915_params_free`), `drmDevFree` (the DRM-managed memory, including
the `drm_i915_private` aggregate and the drmm-allocated ggtt, being
freed when the last DRM reference drops), `devresGroupReleased`
(`devres_release_group` completing), `putDevice` (`put_device` dropping
the identity reference, which at zero invokes `release_dev`). -/
inductive Event where
  | allocPdev
  | openGroup
  | allocDrmDev
  | paramsCopy
  | modeConfigInit
  | uncoreInit
  | wakerefInc
  | memRegionsProbe
  | allocWq
  | schedCreate (slots : Nat) (mask : CpuMask)
  | initContexts
  | drmmAllocGgtt
  | initGgtt
  | vmGet
  | engineConstruct
  | engineInitDone
  | enginesRegister
  | idaInit
  | debuggerInit
  | debuggerFini
  | engineFlush
  | retire (done : Bool)
  | gtDriverRemove
  | drainWorkqueue
  | drainFreedObjects
  | finiGgtt
  | schedPut
  | lateReleaseAll
  | memRegionsRelease
  | destroyWq
  | modeConfigCleanup
  | uncoreUninit
  | paramsFree
  | drmDevFree
  | devresGroupReleased
  | putDevice
deriving DecidableEq

/-- Which fallible collaborator calls of `mock_gem_device` succeed.
In source order: `kzalloc` of the pdev, `devres_open_group`,
`devm_drm_dev_alloc`, `mock_uncore_init`, `alloc_workqueue`,
`i915_sched_engine_create_cpu`, `drmm_kzalloc` of the ggtt,
`mock_engine`, `mock_engine_init`. -/
structure FailProfile where
  pdevOk : Bool
  devresOk : Bool
  drmOk : Bool
  uncoreOk : Bool
  wqOk : Bool
  schedOk : Bool
  ggttOk : Bool
  engineOk : Bool
  engineInitOk : Bool
deriving DecidableEq

/-- `mock_device_flush`: iterate flushing the engine and asking
retirement until it reports that no work remains.  `oracle` supplies the
successive reports of `intel_gt_retire_requests_timeout`. -/
def mock_device_flush_trace : List Bool → List Event
  | [] => []
  | r :: rs =>
      Event.engineFlush :: Event.retire r ::
        (if r then [] else mock_device_flush_trace rs)

/-- `mock_device_release`: the DRM release callback.  When `do_release`
is clear it only frees the params copy; otherwise it runs the full
teardown: debugger fini, drain, engine removal, deferred-object drains,
ggtt teardown, scheduler put, grouped late release, memory-region
release, workqueue destruction, mode-config cleanup, uncore uninit,
params free. -/
def mock_device_release_trace (doRelease : Bool) (oracle : List Bool) :
    List Event :=
  if doRelease then
    Event.debuggerFini ::
      (mock_device_flush_trace oracle ++
        [Event.gtDriverRemove, Event.drainWorkqueue,
         Event.drainFreedObjects, Event.finiGgtt, Event.schedPut,
         Event.lateReleaseAll, Event.memRegionsRelease, Event.destroyWq,
         Event.modeConfigCleanup, Event.uncoreUninit, Event.paramsFree])
  else
    [Event.paramsFree]

/-- `mock_destroy_device`: releasing the devres group runs the release
callback and frees the DRM-managed memory, then `put_device` drops the
identity reference. -/
def mock_destroy_device_trace (doRelease : Bool) (oracle : List Bool) :
    List Event :=
  mock_device_release_trace doRelease oracle ++
    [Event.drmDevFree, Event.devresGroupReleased, Event.putDevice]

/-- Goto label `err_drv` of `mock_gem_device`: late-release-all,
memory-region release, mode-config cleanup, then `mock_destroy_device`
(with `do_release` still false, so the callback only frees params). -/
def mock_err_drv : List Event :=
  [Event.lateReleaseAll, Event.memRegionsRelease,
   Event.modeConfigCleanup] ++ mock_destroy_device_trace false []

/-- Goto label `err_uncore`: uncore uninit, then fall through to
`err_drv`. -/
def mock_err_uncore : List Event :=
  Event.uncoreUninit :: mock_err_drv

/-- Goto label `err_free_wq`: destroy the workqueue, then fall through
to `err_uncore`. -/
def mock_err_free_wq : List Event :=
  Event.destroyWq :: mock_err_uncore

/-- Goto label `err_unlock`: put the scheduler, then fall through to
`err_free_wq`. -/
def mock_err_unlock : List Event :=
  Event.schedPut :: mock_err_free_wq

/-- Goto label `err_context`: remove the engine, then fall through to
`err_unlock`. -/
def mock_err_context : List Event :=
  Event.gtDriverRemove :: mock_err_unlock

/-- The resources held by a returned device. -/
structure DeviceResult where
  hasIdentity : Bool
  hasScope : Bool
  hasDrmDev : Bool
  hasUncore : Bool
  hasWq : Bool
  hasSched : Bool
  schedSlots : Nat
  schedMask : CpuMask
  hasGgtt : Bool
  hasEngine : Bool
  do_release : Bool
deriving DecidableEq

/-- The device returned on the success path: every resource held,
scheduler created with 3 slots on all CPUs, `do_release` set. -/
def fullDevice : DeviceResult :=
  ⟨true, true, true, true, true, true, 3, CpuMask.allCpus, true, true,
   true⟩

/-- `mock_gem_device`, line by line.  Each fallible call consults the
profile; on failure the matching inline unwind of the source runs and
`none` is returned.  Non-fallible bookkeeping between the fallible
calls is emitted in source order. -/
def mock_gem_device (f : FailProfile) :
    List Event × Option DeviceResult :=
  if !f.pdevOk then ([], none)
  else if !f.devresOk then ([Event.allocPdev, Event.putDevice], none)
  else if !f.drmOk then
    ([Event.allocPdev, Event.openGroup, Event.devresGroupReleased,
      Event.putDevice], none)
  else
    let pre : List Event :=
      [Event.allocPdev, Event.openGroup, Event.allocDrmDev,
       Event.paramsCopy, Event.modeConfigInit]
    if !f.uncoreOk then (pre ++ mock_err_drv, none)
    else
      let pre := pre ++
        [Event.uncoreInit, Event.wakerefInc, Event.memRegionsProbe]
      if !f.wqOk then (pre ++ mock_err_uncore, none)
      else
        let pre := pre ++ [Event.allocWq]
        if !f.schedOk then (pre ++ mock_err_free_wq, none)
        else
          let pre := pre ++
            [Event.schedCreate 3 CpuMask.allCpus, Event.initContexts]
          if !f.ggttOk then (pre ++ mock_err_unlock, none)
          else
            let pre := pre ++
              [Event.drmmAllocGgtt, Event.initGgtt, Event.vmGet]
            if !f.engineOk then (pre ++ mock_err_unlock, none)
            else
              let pre := pre ++ [Event.engineConstruct]
              if !f.engineInitOk then (pre ++ mock_err_context, none)
              else
                (pre ++
                  [Event.engineInitDone, Event.enginesRegister,
                   Event.idaInit, Event.debuggerInit],
                 some fullDevice)

/-- The event trace of one run of `mock_gem_device`. -/
def mgdTrace (f : FailProfile) : List Event :=
  (mock_gem_device f).1

/-- The return value of one run of `mock_gem_device`. -/
def mgdResult (f : FailProfile) : Option DeviceResult :=
  (mock_gem_device f).2

example :
    mgdTrace ⟨true, true, true, true, true, true, false, true, true⟩ =
      [Event.allocPdev, Event.openGroup, Event.allocDrmDev,
       Event.paramsCopy, Event.modeConfigInit, Event.uncoreInit,
       Event.wakerefInc, Event.memRegionsProbe, Event.allocWq,
       Event.schedCreate 3 CpuMask.allCpus, Event.initContexts,
       Event.schedPut, Event.destroyWq, Event.uncoreUninit,
       Event.lateReleaseAll, Event.memRegionsRelease,
       Event.modeConfigCleanup, Event.paramsFree, Event.drmDevFree,
       Event.devresGroupReleased, Event.putDevice] := by
  decide

/-- The profile on which every fallible call succeeds. -/
def allOkProfile : FailProfile :=
  ⟨true, true, true, true, true, true, true, true, true⟩

/-- The profile whose first (and only) failing call is the
`drmm_kzalloc` of the ggtt (Translation Layer allocation). -/
def ggttFailProfile : FailProfile :=
  ⟨true, true, true, true, true, true, false, true, true⟩

/-- The profile whose first (and only) failing call is `mock_engine`
(Compute Engine construction). -/
def engineFailProfile : FailProfile :=
  ⟨true, true, true, true, true, true, true, false, true⟩

/-- The profile whose first (and only) failing call is
`i915_sched_engine_create_cpu` (Command Scheduler creation). -/
def schedFailProfile : FailProfile :=
  ⟨true, true, true, true, true, false, true, true, true⟩

/-- The eight resources the prefix-unwind claim enumerates. -/
inductive Resource where
  | identity
  | scope
  | deviceAggregate
  | registerShim
  | workqueue
  | scheduler
  | translationLayer
  | computeEngine
deriving DecidableEq

/-- The acquisition event of each resource. -/
def acqEvent : Resource → Event
  | Resource.identity => Event.allocPdev
  | Resource.scope => Event.openGroup
  | Resource.deviceAggregate => Event.allocDrmDev
  | Resource.registerShim => Event.uncoreInit
  | Resource.workqueue => Event.allocWq
  | Resource.scheduler => Event.schedCreate 3 CpuMask.allCpus
  | Resource.translationLayer => Event.initGgtt
  | Resource.computeEngine => Event.engineConstruct

/-- The matching release event of each resource (the `release` half of
each acquisition/release pair of spec §6; the device aggregate is freed
with the DRM-managed memory). -/
def relEvent : Resource → Event
  | Resource.identity => Event.putDevice
  | Resource.scope => Event.devresGroupReleased
  | Resource.deviceAggregate => Event.drmDevFree
  | Resource.registerShim => Event.uncoreUninit
  | Resource.workqueue => Event.destroyWq
  | Resource.scheduler => Event.schedPut
  | Resource.translationLayer => Event.finiGgtt
  | Resource.computeEngine => Event.gtDriverRemove

/-- All eight ledger resources. -/
def allResources : List Resource :=
  [Resource.identity, Resource.scope, Resource.deviceAggregate,
   Resource.registerShim, Resource.workqueue, Resource.scheduler,
   Resource.translationLayer, Resource.computeEngine]

/-- The ledger resources other than the translation layer. -/
def coreResources : List Resource :=
  [Resource.identity, Resource.scope, Resource.deviceAggregate,
   Resource.registerShim, Resource.workqueue, Resource.scheduler,
   Resource.computeEngine]

/-- Index of the first occurrence of `e`, the length if absent. -/
def idxOf (e : Event) : List Event → Nat
  | [] => 0
  | a :: as => if a = e then 0 else idxOf e as + 1

/-- `seqWithin pat tr` decides whether `pat` occurs within `tr` as a
subsequence, in order (greedy matching). -/
def seqWithin : List Event → List Event → Bool
  | [], _ => true
  | _ :: _, [] => false
  | a :: as, b :: bs =>
      if a = b then seqWithin as bs else seqWithin (a :: as) bs

/-- Resource `r` was acquired during run `f`. -/
def acquired (f : FailProfile) (r : Resource) : Prop :=
  acqEvent r ∈ mgdTrace f

instance (f : FailProfile) (r : Resource) : Decidable (acquired f r) :=
  inferInstanceAs (Decidable (acqEvent r ∈ mgdTrace f))

/-- Over the resources `rs`, run `f` released every acquired resource
exactly once, released nothing it did not acquire, and performed the
releases in reverse acquisition order. -/
def ledgerUnwound (rs : List Resource) (f : FailProfile) : Prop :=
  (∀ r ∈ rs,
    (acquired f r → (mgdTrace f).count (relEvent r) = 1) ∧
    (¬ acquired f r → (mgdTrace f).count (relEvent r) = 0)) ∧
  (∀ r₁ ∈ rs, ∀ r₂ ∈ rs, acquired f r₁ → acquired f r₂ →
    idxOf (acqEvent r₁) (mgdTrace f) < idxOf (acqEvent r₂) (mgdTrace f) →
    idxOf (relEvent r₂) (mgdTrace f) < idxOf (relEvent r₁) (mgdTrace f))

instance (rs : List Resource) (f : FailProfile) :
    Decidable (ledgerUnwound rs f) := by
  unfold ledgerUnwound; infer_instance

/-- The prefix-unwind property as it actually holds on the failure
paths: the seven resources other than the translation layer are
released exactly once each, in reverse acquisition order; the
translation layer's own teardown (`mock_fini_ggtt`) is never invoked on
a failure path, its drmm-allocated backing memory being freed with the
DRM-managed memory instead. -/
def unwoundExceptGtt (f : FailProfile) : Prop :=
  ledgerUnwound coreResources f ∧
  (mgdTrace f).count Event.finiGgtt = 0 ∧
  (acquired f Resource.translationLayer → Event.drmDevFree ∈ mgdTrace f)

instance (f : FailProfile) : Decidable (unwoundExceptGtt f) := by
  unfold unwoundExceptGtt; infer_instance

/-- Discriminator for scheduler-creation events. -/
def isSchedCreate : Event → Bool
  | Event.schedCreate _ _ => true
  | _ => false

/-- The eleven release calls `mock_device_release` performs after the
drain loop, in source order. -/
def drainedTeardown : List Event :=
  [Event.gtDriverRemove, Event.drainWorkqueue, Event.drainFreedObjects,
   Event.finiGgtt, Event.schedPut, Event.lateReleaseAll,
   Event.memRegionsRelease, Event.destroyWq, Event.modeConfigCleanup,
   Event.uncoreUninit, Event.paramsFree]

/-- The one-shot teardown actions of a full destruction (everything
except the oracle-dependent drain loop), in the order the code performs
them. -/
def teardownSteps : List Event :=
  [Event.debuggerFini] ++ drainedTeardown ++
    [Event.drmDevFree, Event.devresGroupReleased, Event.putDevice]

/-- The fields of `drm_i915_private` (plus the identity) that the
release callback may touch, abstracted to whether each resource is
still held. -/
structure I915State where
  params : Bool
  uncore : Bool
  wq : Bool
  sched : Bool
  ggtt : Bool
  engine : Bool
  modeConfig : Bool
  debugger : Bool
  do_release : Bool
deriving DecidableEq

/-- `mock_device_release` as a transformer on the abstract device
state: with `do_release` set it runs the full teardown, releasing every
resource; with `do_release` clear it jumps to `out:` and frees only the
params copy. -/
def mock_device_release_state (s : I915State) : I915State :=
  if s.do_release then
    { s with debugger := false, engine := false, ggtt := false,
             sched := false, wq := false, modeConfig := false,
             uncore := false, params := false }
  else
    { s with params := false }

/-- The per-level cache-attribute loop of `mock_gem_device`
(`for (i = 0; i < I915_MAX_CACHE_LEVEL; i++) cachelevel_to_pat[i] = i`):
`cachelevel_fill t n` is the table after the first `n` iterations have
run, starting from an arbitrary initial table `t`. -/
def cachelevel_fill (t : Nat → Nat) : Nat → (Nat → Nat)
  | 0 => t
  | n + 1 => Function.update (cachelevel_fill t n) n n

/-- A device state holding every resource, with `do_release` clear:
the state a partially constructed device is in when the uniform destroy
entry point routes through the release callback. -/
def c6state : I915State :=
  ⟨true, true, true, true, true, true, true, true, false⟩

/-- `VM_SHARED` (bit 3) and `VM_MAYWRITE` (bit 5), with the values
these vm_flags bits have in the upstream kernel's `linux/mm.h`. -/
def VM_SHARED : Nat := 0x00000008

/-- `VM_MAYWRITE`, bit 5 of vm_flags. -/
def VM_MAYWRITE : Nat := 0x00000020

/-- `is_cow_mapping` of `backport-include/linux/mm.h`:
`(flags & (VM_SHARED | VM_MAYWRITE)) == VM_MAYWRITE`. -/
def is_cow_mapping (flags : Nat) : Bool :=
  (flags &&& (VM_SHARED ||| VM_MAYWRITE)) == VM_MAYWRITE

/-- Claim C1, as stated, is false: when `mock_engine` is the first call
to fail, the translation layer has been acquired (`mock_init_ggtt` ran)
but the unwind chain entered at `err_unlock` never calls
`mock_fini_ggtt`, so the translation layer is not released by its
matching release call. -/
theorem C1_counterexample :
    ¬ (mgdResult engineFailProfile = none →
        ledgerUnwound allResources engineFailProfile) := by
  decide

/-- Claim C1, amended: on every failing run, each of the seven
resources other than the translation layer that was acquired is
released exactly once, nothing unacquired is released, and the releases
happen in reverse acquisition order; the translation layer's teardown
call is never made on a failure path — when the translation layer was
initialized (engine-construction or engine-init failure) only its
DRM-managed backing memory is freed, with the grouped-scope release. -/
theorem C1_amended :
    ∀ f : FailProfile, mgdResult f = none → unwoundExceptGtt f := by
  rintro ⟨a, b, c, d, e, g, h, i, j⟩
  revert a b c d e g h i j
  decide

/-- Witness for `C1_amended` at the engine-construction failure. -/
theorem C1_amended_witness :
    mgdResult engineFailProfile = none ∧
      unwoundExceptGtt engineFailProfile :=
  ⟨by decide, C1_amended engineFailProfile (by decide)⟩

/-- Claim C2: when the `drmm_kzalloc` of the ggtt is the first call to
fail, the run releases the scheduler, destroys the workqueue,
uninitializes the register shim, releases the grouped devres scope,
drops the identity reference — in that order — and returns null. -/
theorem C2_ggtt_alloc_failure_unwind :
    mgdResult ggttFailProfile = none ∧
      seqWithin
        [Event.schedPut, Event.destroyWq, Event.uncoreUninit,
         Event.devresGroupReleased, Event.putDevice]
        (mgdTrace ggttFailProfile) = true := by
  decide

/-- Claim C3: for every combination of collaborator failures,
`mock_gem_device` returns either null or the fully constructed device
(every resource held, `do_release` set), and it returns the latter only
on the all-success run: no partially constructed device ever reaches
the caller. -/
theorem C3_no_partial_device :
    ∀ f : FailProfile,
      mgdResult f = none ∨
        (f = allOkProfile ∧ mgdResult f = some fullDevice ∧
          fullDevice.do_release = true) := by
  rintro ⟨a, b, c, d, e, g, h, i, j⟩
  revert a b c d e g h i j
  decide

/-- Claim C8: on every run that reaches scheduler creation (all five
earlier fallible calls succeed), the scheduler factory is invoked with
exactly 3 worker slots and the all-CPUs mask, after the workqueue
allocation it is bound to; and if it fails, the workqueue is destroyed
and then the label-B register-shim unwind chain (uncore uninit,
late-release-all, memory-region release, mode-config cleanup, grouped
scope release, identity drop) runs before null is returned. -/
theorem C8_scheduler_contract :
    ∀ f : FailProfile,
      f.pdevOk = true → f.devresOk = true → f.drmOk = true →
      f.uncoreOk = true → f.wqOk = true →
      (∀ e ∈ mgdTrace f, isSchedCreate e = true →
        e = Event.schedCreate 3 CpuMask.allCpus) ∧
      (f.schedOk = true →
        seqWithin [Event.allocWq, Event.schedCreate 3 CpuMask.allCpus]
          (mgdTrace f) = true) ∧
      (f.schedOk = false →
        mgdResult f = none ∧
        seqWithin
          [Event.allocWq, Event.destroyWq, Event.uncoreUninit,
           Event.lateReleaseAll, Event.memRegionsRelease,
           Event.modeConfigCleanup, Event.devresGroupReleased,
           Event.putDevice] (mgdTrace f) = true ∧
        Event.schedCreate 3 CpuMask.allCpus ∉ mgdTrace f) := by
  rintro ⟨a, b, c, d, e, g, h, i, j⟩
  revert a b c d e g h i j
  decide

/-- Witness for `C8_scheduler_contract` at the scheduler-creation
failure. -/
theorem C8_scheduler_contract_witness :
    ((∀ e ∈ mgdTrace schedFailProfile, isSchedCreate e = true →
        e = Event.schedCreate 3 CpuMask.allCpus) ∧
      (schedFailProfile.schedOk = true →
        seqWithin [Event.allocWq, Event.schedCreate 3 CpuMask.allCpus]
          (mgdTrace schedFailProfile) = true) ∧
      (schedFailProfile.schedOk = false →
        mgdResult schedFailProfile = none ∧
        seqWithin
          [Event.allocWq, Event.destroyWq, Event.uncoreUninit,
           Event.lateReleaseAll, Event.memRegionsRelease,
           Event.modeConfigCleanup, Event.devresGroupReleased,
           Event.putDevice] (mgdTrace schedFailProfile) = true ∧
        Event.schedCreate 3 CpuMask.allCpus ∉
          mgdTrace schedFailProfile)) :=
  C8_scheduler_contract schedFailProfile rfl rfl rfl rfl rfl

/-- Claim C9: on every failing run of `mock_gem_device` after the
device aggregate was allocated, the release callback fires with
`do_release` still false and so frees only the params copy, and none
of the resources already released by the inline goto unwind (engine,
scheduler, workqueue, register shim, GTT) is released a second time:
each release event occurs at most once in the whole trace. -/
theorem C9_no_double_release :
    ∀ f : FailProfile,
      f.pdevOk = true → f.devresOk = true → f.drmOk = true →
      mgdResult f = none →
      mock_device_release_trace false [] = [Event.paramsFree] ∧
      (mgdTrace f).count Event.paramsFree = 1 ∧
      (mgdTrace f).count Event.gtDriverRemove ≤ 1 ∧
      (mgdTrace f).count Event.schedPut ≤ 1 ∧
      (mgdTrace f).count Event.destroyWq ≤ 1 ∧
      (mgdTrace f).count Event.uncoreUninit ≤ 1 ∧
      (mgdTrace f).count Event.finiGgtt ≤ 1 := by
  rintro ⟨a, b, c, d, e, g, h, i, j⟩
  revert a b c d e g h i j
  decide

/-- Witness for `C9_no_double_release` at the engine-init failure (the
failure path that releases the most resources inline). -/
theorem C9_no_double_release_witness :
    mock_device_release_trace false [] = [Event.paramsFree] ∧
      (mgdTrace ⟨true, true, true, true, true, true, true, true,
        false⟩).count Event.paramsFree = 1 ∧
      (mgdTrace ⟨true, true, true, true, true, true, true, true,
        false⟩).count Event.gtDriverRemove ≤ 1 ∧
      (mgdTrace ⟨true, true, true, true, true, true, true, true,
        false⟩).count Event.schedPut ≤ 1 ∧
      (mgdTrace ⟨true, true, true, true, true, true, true, true,
        false⟩).count Event.destroyWq ≤ 1 ∧
      (mgdTrace ⟨true, true, true, true, true, true, true, true,
        false⟩).count Event.uncoreUninit ≤ 1 ∧
      (mgdTrace ⟨true, true, true, true, true, true, true, true,
        false⟩).count Event.finiGgtt ≤ 1 :=
  C9_no_double_release
    ⟨true, true, true, true, true, true, true, true, false⟩
    rfl rfl rfl (by decide)

/-- Every event of the drain loop is an engine flush or a retirement
report. -/
theorem flush_events (o : List Bool) :
    ∀ e ∈ mock_device_flush_trace o,
      e = Event.engineFlush ∨ ∃ b, e = Event.retire b := by
  induction o with
  | nil => intro e he; cases he
  | cons r rs ih =>
    intro e he
    cases r with
    | true =>
        simp [mock_device_flush_trace] at he
        rcases he with rfl | rfl
        · left; rfl
        · right; exact ⟨true, rfl⟩
    | false =>
        simp only [mock_device_flush_trace, if_neg Bool.false_ne_true,
          List.mem_cons] at he
        rcases he with rfl | rfl | he
        · left; rfl
        · right; exact ⟨false, rfl⟩
        · exact ih e he

/-- If retirement eventually reports that no work remains, the drain
loop's trace ends with that report: the loop only returns after
retirement reports zero outstanding work. -/
theorem flush_split (o : List Bool) (ho : true ∈ o) :
    ∃ q, mock_device_flush_trace o = q ++ [Event.retire true] ∧
      ∀ e ∈ q, e = Event.engineFlush ∨ ∃ b, e = Event.retire b := by
  induction o with
  | nil => cases ho
  | cons r rs ih =>
    cases r with
    | true =>
        refine ⟨[Event.engineFlush], rfl, ?_⟩
        intro e he
        simp at he
        subst he
        left
        rfl
    | false =>
        have ho' : true ∈ rs := by simpa using ho
        obtain ⟨q, hq, hm⟩ := ih ho'
        refine ⟨Event.engineFlush :: Event.retire false :: q, ?_, ?_⟩
        · simp [mock_device_flush_trace, hq]
        · intro e he
          rcases List.mem_cons.mp he with rfl | he
          · left; rfl
          · rcases List.mem_cons.mp he with rfl | he
            · right; exact ⟨false, rfl⟩
            · exact hm e he

/-- The drain loop's last event is the successful retirement report. -/
theorem flush_getLast (o : List Bool) (ho : true ∈ o) :
    (mock_device_flush_trace o).getLast? = some (Event.retire true) := by
  obtain ⟨q, hq, -⟩ := flush_split o ho
  rw [hq]
  simp

/-- The drain loop emits none of the one-shot teardown events. -/
theorem flush_count_eq_zero (o : List Bool) (e : Event)
    (h1 : e ≠ Event.engineFlush) (h2 : ∀ b, e ≠ Event.retire b) :
    (mock_device_flush_trace o).count e = 0 := by
  induction o with
  | nil => rfl
  | cons r rs ih =>
    cases r <;>
      simp [mock_device_flush_trace, List.count_cons, ih,
            Ne.symm (h2 _), Ne.symm h1, h1, h2]

/-- The drain loop emits none of the events of `teardownSteps`. -/
theorem flush_count_teardown (o : List Bool) :
    ∀ e ∈ teardownSteps, (mock_device_flush_trace o).count e = 0 := by
  intro e he
  fin_cases he <;>
    exact flush_count_eq_zero o _ (by decide) (fun _ h => nomatch h)

/-- The full-destruction trace, as the drain segment followed by the
one-shot releases in source order. -/
theorem destroy_trace_eq (o : List Bool) :
    mock_destroy_device_trace true o =
      [Event.debuggerFini] ++ mock_device_flush_trace o ++
        (drainedTeardown ++
          [Event.drmDevFree, Event.devresGroupReleased,
           Event.putDevice]) := by
  simp [mock_destroy_device_trace, mock_device_release_trace,
        drainedTeardown]

/-- Claim C4: in the teardown path with `do_release` set, every
`intel_gt_driver_remove` and `mock_fini_ggtt` call happens strictly
after the drain loop has returned — the trace splits at the final
retirement report, with no engine or translation-layer release before
it and both after it — and the drain loop only returns once retirement
reports that no work remains. -/
theorem C4_drain_before_free :
    ∀ o : List Bool, true ∈ o →
      ∃ p post,
        mock_device_release_trace true o =
          p ++ Event.retire true :: post ∧
        p ++ [Event.retire true] =
          Event.debuggerFini :: mock_device_flush_trace o ∧
        (∀ e ∈ p, e ≠ Event.gtDriverRemove ∧ e ≠ Event.finiGgtt) ∧
        Event.gtDriverRemove ∈ post ∧ Event.finiGgtt ∈ post ∧
        (mock_device_flush_trace o).getLast? =
          some (Event.retire true) := by
  intro o ho
  obtain ⟨q, hq, hm⟩ := flush_split o ho
  refine ⟨Event.debuggerFini :: q, drainedTeardown, ?_, ?_, ?_,
    by decide, by decide, flush_getLast o ho⟩
  · simp [mock_device_release_trace, hq, drainedTeardown]
  · rw [hq]
    simp
  · intro e he
    rcases List.mem_cons.mp he with rfl | he
    · exact ⟨fun h => Event.noConfusion h, fun h => Event.noConfusion h⟩
    · rcases hm e he with rfl | ⟨b, rfl⟩ <;>
        exact ⟨fun h => Event.noConfusion h,
               fun h => Event.noConfusion h⟩

/-- Witness for `C4_drain_before_free` at the one-iteration drain. -/
theorem C4_drain_before_free_witness :
    true ∈ [true] ∧
      ∃ p post,
        mock_device_release_trace true [true] =
          p ++ Event.retire true :: post ∧
        p ++ [Event.retire true] =
          Event.debuggerFini :: mock_device_flush_trace [true] ∧
        (∀ e ∈ p, e ≠ Event.gtDriverRemove ∧ e ≠ Event.finiGgtt) ∧
        Event.gtDriverRemove ∈ post ∧ Event.finiGgtt ∈ post ∧
        (mock_device_flush_trace [true]).getLast? =
          some (Event.retire true) :=
  ⟨by decide, C4_drain_before_free [true] (by decide)⟩

/-- Claim C5, as stated, is false: in a full destruction the
configuration-copy free (`i915_params_free`, step 12) is executed by
the release callback, which runs inside the devres-scope release, so it
precedes the scope-release completion and the identity reference drop
(step 11); the twelve steps do not execute with step 11 before
step 12. -/
theorem C5_counterexample :
    seqWithin
      [Event.debuggerFini, Event.retire true, Event.gtDriverRemove,
       Event.drainWorkqueue, Event.drainFreedObjects, Event.finiGgtt,
       Event.schedPut, Event.lateReleaseAll, Event.memRegionsRelease,
       Event.destroyWq, Event.modeConfigCleanup, Event.uncoreUninit,
       Event.devresGroupReleased, Event.putDevice, Event.paramsFree]
      (mock_destroy_device_trace true [true]) = false := by
  decide

/-- Claim C5, amended: a full destruction executes all twelve teardown
steps, each exactly once, in the code's order — debugger fini, drain,
engine removal, deferred-object drains, translation-layer teardown,
scheduler release, grouped late release and memory-region release,
workqueue destruction, mode-config teardown, register-shim uninit, then
the configuration-copy free, and last the DRM-managed memory free,
scope-release completion and identity reference drop (the release
callback, which ends with the configuration-copy free, runs inside the
scope release of step 11) — and the drain segment ends with the
zero-work retirement report. -/
theorem C5_amended_teardown_order :
    ∀ o : List Bool, true ∈ o →
      mock_destroy_device_trace true o =
        [Event.debuggerFini] ++ mock_device_flush_trace o ++
          (drainedTeardown ++
            [Event.drmDevFree, Event.devresGroupReleased,
             Event.putDevice]) ∧
      (∀ e ∈ teardownSteps,
        (mock_destroy_device_trace true o).count e = 1) ∧
      (mock_device_flush_trace o).getLast? =
        some (Event.retire true) := by
  intro o ho
  refine ⟨destroy_trace_eq o, ?_, flush_getLast o ho⟩
  intro e he
  rw [destroy_trace_eq o, List.count_append, List.count_append,
      flush_count_teardown o e he]
  fin_cases he <;> decide

/-- Witness for `C5_amended_teardown_order` at the one-iteration
drain. -/
theorem C5_amended_teardown_order_witness :
    true ∈ [true] ∧
      (mock_destroy_device_trace true [true] =
        [Event.debuggerFini] ++ mock_device_flush_trace [true] ++
          (drainedTeardown ++
            [Event.drmDevFree, Event.devresGroupReleased,
             Event.putDevice]) ∧
      (∀ e ∈ teardownSteps,
        (mock_destroy_device_trace true [true]).count e = 1) ∧
      (mock_device_flush_trace [true]).getLast? =
        some (Event.retire true)) :=
  ⟨by decide, C5_amended_teardown_order [true] (by decide)⟩

/-- Claim C6: when the release callback runs with `do_release` false it
frees only the configuration copy — the trace is exactly the params
free, and on the abstract device state every field other than the
params copy is unchanged. -/
theorem C6_release_skips_when_flag_clear :
    ∀ s : I915State, s.do_release = false →
      (mock_device_release_state s).params = false ∧
      (mock_device_release_state s).uncore = s.uncore ∧
      (mock_device_release_state s).wq = s.wq ∧
      (mock_device_release_state s).sched = s.sched ∧
      (mock_device_release_state s).ggtt = s.ggtt ∧
      (mock_device_release_state s).engine = s.engine ∧
      (mock_device_release_state s).modeConfig = s.modeConfig ∧
      (mock_device_release_state s).debugger = s.debugger ∧
      (mock_device_release_state s).do_release = s.do_release ∧
      mock_device_release_trace s.do_release [] =
        [Event.paramsFree] := by
  intro s h
  simp [mock_device_release_state, mock_device_release_trace, h]

/-- Witness for `C6_release_skips_when_flag_clear` on a state holding
every resource with `do_release` clear. -/
theorem C6_release_skips_witness :
    c6state.do_release = false ∧
      ((mock_device_release_state c6state).params = false ∧
        (mock_device_release_state c6state).uncore = c6state.uncore ∧
        (mock_device_release_state c6state).wq = c6state.wq ∧
        (mock_device_release_state c6state).sched = c6state.sched ∧
        (mock_device_release_state c6state).ggtt = c6state.ggtt ∧
        (mock_device_release_state c6state).engine = c6state.engine ∧
        (mock_device_release_state c6state).modeConfig =
          c6state.modeConfig ∧
        (mock_device_release_state c6state).debugger =
          c6state.debugger ∧
        (mock_device_release_state c6state).do_release =
          c6state.do_release ∧
        mock_device_release_trace c6state.do_release [] =
          [Event.paramsFree]) :=
  ⟨rfl, C6_release_skips_when_flag_clear c6state rfl⟩

/-- Claim C7: after the construction loop runs, the cache-attribute
table maps every index below the maximum cache level to itself, and
the resulting table does not depend on the initial table, so repeated
construction yields the identical table. -/
theorem C7_cache_table_identity :
    ∀ (n : Nat) (t t' : Nat → Nat) (i : Nat), i < n →
      cachelevel_fill t n i = i ∧
      cachelevel_fill t n i = cachelevel_fill t' n i := by
  intro n
  induction n with
  | zero => intro t t' i hi; exact absurd hi (Nat.not_lt_zero i)
  | succ n ih =>
    intro t t' i hi
    rcases Nat.lt_succ_iff_lt_or_eq.mp hi with h | rfl
    · have hne : i ≠ n := Nat.ne_of_lt h
      have h1 := ih t t' i h
      constructor
      · simp only [cachelevel_fill, Function.update_noteq hne]
        exact h1.1
      · simp only [cachelevel_fill, Function.update_noteq hne]
        exact h1.2
    · constructor
      · simp only [cachelevel_fill, Function.update_same]
      · simp only [cachelevel_fill, Function.update_same]

/-- Witness for `C7_cache_table_identity` with three levels and two
different initial tables. -/
theorem C7_cache_table_identity_witness :
    1 < 3 ∧
      (cachelevel_fill (fun _ => 7) 3 1 = 1 ∧
        cachelevel_fill (fun _ => 7) 3 1 =
          cachelevel_fill (fun _ => 9) 3 1) :=
  ⟨by decide,
   C7_cache_table_identity 3 (fun _ => 7) (fun _ => 9) 1 (by decide)⟩

/-- Claim C10: for every flags value, `is_cow_mapping` returns true
exactly when the `VM_MAYWRITE` bit (bit 5) is set and the `VM_SHARED`
bit (bit 3) is clear. -/
theorem C10_is_cow_mapping_iff :
    ∀ flags : Nat,
      is_cow_mapping flags = true ↔
        flags.testBit 5 = true ∧ flags.testBit 3 = false := by
  intro flags
  have hor : VM_SHARED ||| VM_MAYWRITE = 40 := by decide
  have hw : VM_MAYWRITE = 32 := by decide
  unfold is_cow_mapping
  rw [hor, hw, beq_iff_eq]
  constructor
  · intro h
    constructor
    · have h5 := congrArg (fun n => n.testBit 5) h
      simp only [Nat.testBit_land] at h5
      rw [show Nat.testBit 40 5 = true from rfl,
          show Nat.testBit 32 5 = true from rfl, Bool.and_true] at h5
      exact h5
    · have h3 := congrArg (fun n => n.testBit 3) h
      simp only [Nat.testBit_land] at h3
      rw [show Nat.testBit 40 3 = true from rfl,
          show Nat.testBit 32 3 = false from rfl, Bool.and_true] at h3
      exact h3
  · rintro ⟨h5, h3⟩
    apply Nat.eq_of_testBit_eq
    intro i
    rw [Nat.testBit_land]
    match i with
    | 0 =>
        rw [show Nat.testBit 40 0 = false from rfl,
            show Nat.testBit 32 0 = false from rfl, Bool.and_false]
    | 1 =>
        rw [show Nat.testBit 40 1 = false from rfl,
            show Nat.testBit 32 1 = false from rfl, Bool.and_false]
    | 2 =>
        rw [show Nat.testBit 40 2 = false from rfl,
            show Nat.testBit 32 2 = false from rfl, Bool.and_false]
    | 3 =>
        rw [show Nat.testBit 40 3 = true from rfl,
            show Nat.testBit 32 3 = false from rfl, h3,
            Bool.false_and]
    | 4 =>
        rw [show Nat.testBit 40 4 = false from rfl,
            show Nat.testBit 32 4 = false from rfl, Bool.and_false]
    | 5 =>
        rw [show Nat.testBit 40 5 = true from rfl,
            show Nat.testBit 32 5 = true from rfl, h5, Bool.true_and]
    | (i + 6) =>
        have hp : (2 : Nat) ^ 6 ≤ 2 ^ (i + 6) :=
          Nat.pow_le_pow_right (by norm_num) (by omega)
        have h40 : (40 : Nat) < 2 ^ (i + 6) :=
          lt_of_lt_of_le (by norm_num) hp
        have h32 : (32 : Nat) < 2 ^ (i + 6) :=
          lt_of_lt_of_le (by norm_num) hp
        rw [Nat.testBit_eq_false_of_lt h40,
            Nat.testBit_eq_false_of_lt h32, Bool.and_false]

end MockI915
